import Mathlib

/-!
# Verification of package `logger` (src/logger/logger.go)

A shallow embedding of the leveled-logging facade.  The package state
(`_level`, `_logger`) is threaded explicitly through every function.  Each
facade function of the source brackets its body with `_mu.Lock / Unlock`
(or `RLock / RUnlock`) and releases the lock before it returns; in this
sequential embedding a locked section therefore runs as one atomic step and
the mutex itself carries no state.  The emit functions call the backend
after the lock is released, so a backend method may itself call the setters.

Effects are observed through two traces carried next to the package state:
* `calls`   - every method invocation made on a `Logger` interface value,
* `printed` - every call made to the standard library's `log.Printf`.
-/

namespace logger

/-! ## Data model -/

/-- Go: `type Level int8`.  A signed 8-bit integer, kept as an `Int` together
with the two range bounds of `int8`. -/
structure Level where
  val : Int
  lo : -128 ≤ val
  hi : val ≤ 127
  deriving DecidableEq

instance : LE Level := ⟨fun a b => a.val ≤ b.val⟩
instance : LT Level := ⟨fun a b => a.val < b.val⟩
instance (a b : Level) : Decidable (a ≤ b) := inferInstanceAs (Decidable (a.val ≤ b.val))
instance (a b : Level) : Decidable (a < b) := inferInstanceAs (Decidable (a.val < b.val))

/-- Go: `LevelDebug Level = 1 << iota` with `iota = 0`. -/
def LevelDebug : Level := ⟨((1 <<< 0 : Nat) : Int), by decide, by decide⟩
/-- Go: `LevelInfo` (implicit repetition of `1 << iota`, `iota = 1`). -/
def LevelInfo : Level := ⟨((1 <<< 1 : Nat) : Int), by decide, by decide⟩
/-- Go: `LevelWarn` (`iota = 2`). -/
def LevelWarn : Level := ⟨((1 <<< 2 : Nat) : Int), by decide, by decide⟩
/-- Go: `LevelError` (`iota = 3`). -/
def LevelError : Level := ⟨((1 <<< 3 : Nat) : Int), by decide, by decide⟩

/-- Dynamic values that can be passed in the variadic `args ...interface{}`.
The facade never inspects them. -/
inductive Value where
  | int (i : Int)
  | str (s : String)
  | bool (b : Bool)
  | nil
  deriving DecidableEq

/-- The four methods of the Go interface `Logger`. -/
inductive Method where
  | Debugf
  | Infof
  | Warnf
  | Errorf
  deriving DecidableEq

mutual
/-- The non-nil dynamic values a variable of interface type `Logger` can hold:
the package's own `simpleLogger{}`, or a caller-supplied implementation
identified by a tag.  `custom id` is an implementation whose methods make no
call into the package; `reentrant id debugf infof warnf errorf` is one whose
four method bodies call the package's setters as described by the four
`Body` values. -/
inductive Impl where
  | simpleLogger
  | custom (id : Nat)
  | reentrant (id : Nat) (debugf infof warnf errorf : Body)
  deriving DecidableEq
/-- The calls that the body of a caller-supplied method makes into the
package's setters, in program order: `SetLevel(level)`, `SetLogger(nil)` or
`SetLogger(logger)` for a non-nil `logger`, followed by the rest of the body;
`ret` is the end of the body. -/
inductive Body where
  | ret
  | setLevel (level : Level) (rest : Body)
  | setLoggerNil (rest : Body)
  | setLogger (logger : Impl) (rest : Body)
  deriving DecidableEq
end

/-- A value of the Go interface type `Logger`; `none` is the nil interface. -/
abbrev Logger := Option Impl

/-- One method invocation on a `Logger` value: receiver, method, and the
format string and argument list it was called with. -/
structure Invocation where
  receiver : Impl
  method : Method
  format : String
  args : List Value
  deriving DecidableEq

/-- One call of the standard library function `log.Printf(format, v...)`. -/
structure PrintCall where
  format : String
  args : List Value
  deriving DecidableEq

/-- The package-level variables `_level` and `_logger`, together with the two
observation traces. -/
structure World where
  _level : Level
  _logger : Logger
  calls : List Invocation
  printed : List PrintCall
  deriving DecidableEq

/-- The state at program start: `_level = LevelInfo`,
`_logger Logger = simpleLogger{}`, nothing called or printed yet. -/
def init : World :=
  { _level := LevelInfo, _logger := some Impl.simpleLogger, calls := [], printed := [] }

/-! ## Standard library: `log.Printf` and a fragment of `fmt.Sprintf` -/

/-- Go: `log.Printf(format, v...)`.  The call is recorded in `printed`; the
standard logger turns each call into one output line. -/
def log.Printf (format : String) (v : List Value) (w : World) : World :=
  { w with printed := w.printed ++ [⟨format, v⟩] }

/-- Rendering of one operand under a formatting verb, for the verbs
`%d`, `%s` and `%v` of Go's `fmt`; `none` for every other combination. -/
def fmt.verb : Char → Value → Option (List Char)
  | 'd', Value.int i => some (toString i).data
  | 's', Value.str s => some s.data
  | 'v', Value.int i => some (toString i).data
  | 'v', Value.str s => some s.data
  | 'v', Value.bool b => some (toString b).data
  | _, _ => none

/-- Scanner for a format string (`pending` is true right after a `%`).
Literal text is copied, `%%` yields a percent sign, a verb consumes the next
operand.  Inputs for which Go would produce one of its `%!` error markers
(missing or extra operands, unknown verb, wrong operand type, flags) are
outside the modelled fragment and give `none`. -/
def fmt.render : Bool → List Char → List Value → Option (List Char)
  | false, [], [] => some []
  | false, [], _ :: _ => none
  | true, [], _ => none
  | false, c :: cs, vs =>
    if c = '%' then fmt.render true cs vs
    else (fmt.render false cs vs).map (c :: ·)
  | true, c :: cs, vs =>
    if c = '%' then (fmt.render false cs vs).map ('%' :: ·)
    else
      match vs with
      | [] => none
      | v :: rest =>
        (fmt.verb c v).bind fun a => (fmt.render false cs rest).map (a ++ ·)

/-- Go: `fmt.Sprintf(format, a...)`, on the fragment described at
`fmt.render`. -/
def fmt.Sprintf (format : String) (a : List Value) : Option String :=
  (fmt.render false format.data a).map String.mk

/-- The message text that `log.Printf` hands to the standard logger for this
call (`fmt.Sprintf(format, v...)`). -/
def PrintCall.message (p : PrintCall) : Option String :=
  fmt.Sprintf p.format p.args

/-! ## The default backend `simpleLogger` -/

/-- Go: `func (s simpleLogger) Debugf(format string, args ...interface{})`. -/
def simpleLogger.Debugf (format : String) (args : List Value) (w : World) : World :=
  log.Printf ("[DEBUG] " ++ format) args w

/-- Go: `func (s simpleLogger) Infof(format string, args ...interface{})`. -/
def simpleLogger.Infof (format : String) (args : List Value) (w : World) : World :=
  log.Printf ("[INFO] " ++ format) args w

/-- Go: `func (s simpleLogger) Warnf(format string, args ...interface{})`. -/
def simpleLogger.Warnf (format : String) (args : List Value) (w : World) : World :=
  log.Printf ("[WARN] " ++ format) args w

/-- Go: `func (s simpleLogger) Errorf(format string, args ...interface{})`. -/
def simpleLogger.Errorf (format : String) (args : List Value) (w : World) : World :=
  log.Printf ("[ERROR] " ++ format) args w

/-! ## The facade: setters and readers -/

/-- Go: `func SetLevel(level Level)`. -/
def SetLevel (level : Level) (w : World) : World :=
  { w with _level := level }

/-- Go: `func SetLogger(logger Logger)`. -/
def SetLogger (logger : Logger) (w : World) : World :=
  { w with _logger := logger }

/-- Go: `func GetLevel() Level`. -/
def GetLevel (w : World) : Level :=
  w._level

/-- Go: `func IsDebugEnabled() bool`, `return _level <= LevelDebug`. -/
def IsDebugEnabled (w : World) : Bool :=
  decide (w._level ≤ LevelDebug)

/-- Go: `func getLoggerAndLevel() (Logger, Level)`. -/
def getLoggerAndLevel (w : World) : Logger × Level :=
  (w._logger, w._level)

/-! ## Method calls through the `Logger` interface

A call `logger.M(format, args...)` is recorded in `calls` and then runs the
body of the receiver's method.  The facade makes this call after
`getLoggerAndLevel` has returned, that is after the read lock is released, so
the body of a caller-supplied method is free to call `SetLevel` and
`SetLogger`; those calls take effect on the package state.  Calls from such a
body into the four emit functions are not modelled. -/

/-- Appends one invocation record to `calls`. -/
def World.record (w : World) (l : Impl) (m : Method) (format : String)
    (args : List Value) : World :=
  { w with calls := w.calls ++ [⟨l, m, format, args⟩] }

/-- Runs the setter calls of a method body, in order. -/
def Body.exec : Body → World → World
  | Body.ret, w => w
  | Body.setLevel level rest, w => rest.exec (SetLevel level w)
  | Body.setLoggerNil rest, w => rest.exec (SetLogger none w)
  | Body.setLogger logger rest, w => rest.exec (SetLogger (some logger) w)

/-- The setter calls made by the body of method `m` of a backend.  The
methods of `simpleLogger` only call `log.Printf`. -/
def Impl.body : Impl → Method → Body
  | Impl.simpleLogger, _ => Body.ret
  | Impl.custom _, _ => Body.ret
  | Impl.reentrant _ debugf _ _ _, Method.Debugf => debugf
  | Impl.reentrant _ _ infof _ _, Method.Infof => infof
  | Impl.reentrant _ _ _ warnf _, Method.Warnf => warnf
  | Impl.reentrant _ _ _ _ errorf, Method.Errorf => errorf

/-- Interface call `logger.Debugf(format, args...)` on a non-nil receiver. -/
def Impl.Debugf (l : Impl) (format : String) (args : List Value) (w : World) : World :=
  match l with
  | Impl.simpleLogger => simpleLogger.Debugf format args (w.record l Method.Debugf format args)
  | Impl.custom _ => w.record l Method.Debugf format args
  | Impl.reentrant _ debugf _ _ _ => debugf.exec (w.record l Method.Debugf format args)

/-- Interface call `logger.Infof(format, args...)` on a non-nil receiver. -/
def Impl.Infof (l : Impl) (format : String) (args : List Value) (w : World) : World :=
  match l with
  | Impl.simpleLogger => simpleLogger.Infof format args (w.record l Method.Infof format args)
  | Impl.custom _ => w.record l Method.Infof format args
  | Impl.reentrant _ _ infof _ _ => infof.exec (w.record l Method.Infof format args)

/-- Interface call `logger.Warnf(format, args...)` on a non-nil receiver. -/
def Impl.Warnf (l : Impl) (format : String) (args : List Value) (w : World) : World :=
  match l with
  | Impl.simpleLogger => simpleLogger.Warnf format args (w.record l Method.Warnf format args)
  | Impl.custom _ => w.record l Method.Warnf format args
  | Impl.reentrant _ _ _ warnf _ => warnf.exec (w.record l Method.Warnf format args)

/-- Interface call `logger.Errorf(format, args...)` on a non-nil receiver. -/
def Impl.Errorf (l : Impl) (format : String) (args : List Value) (w : World) : World :=
  match l with
  | Impl.simpleLogger => simpleLogger.Errorf format args (w.record l Method.Errorf format args)
  | Impl.custom _ => w.record l Method.Errorf format args
  | Impl.reentrant _ _ _ _ errorf => errorf.exec (w.record l Method.Errorf format args)

/-! ## The facade: emit functions -/

/-- Go: `func Debugf(format string, args ...interface{})`:
return early when `logger == nil || level > LevelDebug`, else
`logger.Debugf(format, args...)`. -/
def Debugf (format : String) (args : List Value) (w : World) : World :=
  match getLoggerAndLevel w with
  | (none, _) => w
  | (some l, level) => if level > LevelDebug then w else l.Debugf format args w

/-- Go: `func Infof(format string, args ...interface{})`. -/
def Infof (format : String) (args : List Value) (w : World) : World :=
  match getLoggerAndLevel w with
  | (none, _) => w
  | (some l, level) => if level > LevelInfo then w else l.Infof format args w

/-- Go: `func Warnf(format string, args ...interface{})`. -/
def Warnf (format : String) (args : List Value) (w : World) : World :=
  match getLoggerAndLevel w with
  | (none, _) => w
  | (some l, level) => if level > LevelWarn then w else l.Warnf format args w

/-- Go: `func Errorf(format string, args ...interface{})`. -/
def Errorf (format : String) (args : List Value) (w : World) : World :=
  match getLoggerAndLevel w with
  | (none, _) => w
  | (some l, level) => if level > LevelError then w else l.Errorf format args w

/-! ## Sequences of facade calls -/

/-- The facade function that emits at the severity of method `m`. -/
def emit : Method → String → List Value → World → World
  | Method.Debugf => Debugf
  | Method.Infof => Infof
  | Method.Warnf => Warnf
  | Method.Errorf => Errorf

/-- The severity constant each emit function compares the threshold with. -/
def Method.severity : Method → Level
  | Method.Debugf => LevelDebug
  | Method.Infof => LevelInfo
  | Method.Warnf => LevelWarn
  | Method.Errorf => LevelError

/-- One call of an exported function of the package. -/
inductive Op where
  | SetLevel (level : Level)
  | SetLogger (logger : Logger)
  | GetLevel
  | IsDebugEnabled
  | Debugf (format : String) (args : List Value)
  | Infof (format : String) (args : List Value)
  | Warnf (format : String) (args : List Value)
  | Errorf (format : String) (args : List Value)
  deriving DecidableEq

/-- State after one call.  `GetLevel` and `IsDebugEnabled` only read. -/
def step (w : World) : Op → World
  | Op.SetLevel level => SetLevel level w
  | Op.SetLogger logger => SetLogger logger w
  | Op.GetLevel => w
  | Op.IsDebugEnabled => w
  | Op.Debugf format args => Debugf format args w
  | Op.Infof format args => Infof format args w
  | Op.Warnf format args => Warnf format args w
  | Op.Errorf format args => Errorf format args w

/-- State after a sequence of calls, executed left to right. -/
def run (w : World) (ops : List Op) : World :=
  ops.foldl step w

/-- The invocations made on `Logger` values while going from `w` to a later
state `w2` (the part of `w2.calls` after the first `w.calls.length` records). -/
def newCalls (w w2 : World) : List Invocation :=
  w2.calls.drop w.calls.length

/-- The `log.Printf` calls made while going from `w` to a later state `w2`. -/
def newPrinted (w w2 : World) : List PrintCall :=
  w2.printed.drop w.printed.length

/-! ## Properties of caller-supplied method bodies -/

mutual
/-- No method of the backend calls `SetLevel`, and neither does any backend
that one of its methods installs. -/
def Impl.noSetLevel : Impl → Bool
  | Impl.simpleLogger => true
  | Impl.custom _ => true
  | Impl.reentrant _ debugf infof warnf errorf =>
    debugf.noSetLevel && infof.noSetLevel && warnf.noSetLevel && errorf.noSetLevel
/-- The body makes no call of `SetLevel`, and installs only backends that
never do. -/
def Body.noSetLevel : Body → Bool
  | Body.ret => true
  | Body.setLevel _ _ => false
  | Body.setLoggerNil rest => rest.noSetLevel
  | Body.setLogger logger rest => logger.noSetLevel && rest.noSetLevel
end

/-- The body makes no call of `SetLogger`. -/
def Body.noSetLogger : Body → Bool
  | Body.ret => true
  | Body.setLevel _ rest => rest.noSetLogger
  | Body.setLoggerNil _ => false
  | Body.setLogger _ _ => false

/-- No method of the backend calls `SetLogger`. -/
def Impl.noSetLogger (l : Impl) : Bool :=
  (l.body Method.Debugf).noSetLogger && (l.body Method.Infof).noSetLogger &&
    (l.body Method.Warnf).noSetLogger && (l.body Method.Errorf).noSetLogger

mutual
/-- No method of the backend installs the `Logger` value `A`, and neither
does any backend that one of its methods installs. -/
def Impl.neverInstalls (A : Logger) : Impl → Bool
  | Impl.simpleLogger => true
  | Impl.custom _ => true
  | Impl.reentrant _ debugf infof warnf errorf =>
    debugf.neverInstalls A && infof.neverInstalls A && warnf.neverInstalls A &&
      errorf.neverInstalls A
/-- The body never calls `SetLogger(A)`, and installs only backends that
never install `A`. -/
def Body.neverInstalls (A : Logger) : Body → Bool
  | Body.ret => true
  | Body.setLevel _ rest => rest.neverInstalls A
  | Body.setLoggerNil rest => decide (A ≠ none) && rest.neverInstalls A
  | Body.setLogger logger rest =>
    decide (A ≠ some logger) && logger.neverInstalls A && rest.neverInstalls A
end

/-! ## Basic facts about the embedding -/

theorem Level.le_def (a b : Level) : a ≤ b ↔ a.val ≤ b.val := Iff.rfl

theorem Level.lt_def (a b : Level) : a < b ↔ a.val < b.val := Iff.rfl

theorem Level.not_gt_iff_le (a b : Level) : ¬ a > b ↔ a ≤ b := by
  show ¬ b.val < a.val ↔ a.val ≤ b.val
  omega

theorem Level.ext_val {a b : Level} (h : a.val = b.val) : a = b := by
  cases a; cases b; cases h; rfl

theorem emit_nil (m : Method) (f : String) (a : List Value) (w : World)
    (h : w._logger = none) : emit m f a w = w := by
  cases m <;> simp [emit, Debugf, Infof, Warnf, Errorf, getLoggerAndLevel, h]

theorem emit_suppressed (m : Method) (f : String) (a : List Value) (w : World)
    (h : w._level > m.severity) : emit m f a w = w := by
  cases hl : w._logger with
  | none => exact emit_nil m f a w hl
  | some l =>
    cases m <;>
      simp [emit, Debugf, Infof, Warnf, Errorf, getLoggerAndLevel, hl] <;>
      intro hn <;> exact absurd h hn

theorem Body.exec_calls : ∀ (b : Body) (w : World), (b.exec w).calls = w.calls
  | Body.ret, _ => rfl
  | Body.setLevel level rest, w => by
    show (rest.exec (SetLevel level w)).calls = w.calls
    rw [Body.exec_calls rest (SetLevel level w)]
    rfl
  | Body.setLoggerNil rest, w => by
    show (rest.exec (SetLogger none w)).calls = w.calls
    rw [Body.exec_calls rest (SetLogger none w)]
    rfl
  | Body.setLogger logger rest, w => by
    show (rest.exec (SetLogger (some logger) w)).calls = w.calls
    rw [Body.exec_calls rest (SetLogger (some logger) w)]
    rfl

theorem Body.exec_printed : ∀ (b : Body) (w : World), (b.exec w).printed = w.printed
  | Body.ret, _ => rfl
  | Body.setLevel level rest, w => by
    show (rest.exec (SetLevel level w)).printed = w.printed
    rw [Body.exec_printed rest (SetLevel level w)]
    rfl
  | Body.setLoggerNil rest, w => by
    show (rest.exec (SetLogger none w)).printed = w.printed
    rw [Body.exec_printed rest (SetLogger none w)]
    rfl
  | Body.setLogger logger rest, w => by
    show (rest.exec (SetLogger (some logger) w)).printed = w.printed
    rw [Body.exec_printed rest (SetLogger (some logger) w)]
    rfl

/-- A forwarded emit call is the body of the backend's method, run from a
state that differs from the caller's only in the two traces. -/
theorem emit_forwarded_eq (m : Method) (f : String) (a : List Value) (w : World) (l : Impl)
    (hl : w._logger = some l) (h : w._level ≤ m.severity) :
    ∃ w1 : World, w1._level = w._level ∧ w1._logger = w._logger ∧
      w1.calls = w.calls ++ [⟨l, m, f, a⟩] ∧ emit m f a w = (l.body m).exec w1 := by
  have hn : ¬ w._level > m.severity := (Level.not_gt_iff_le _ _).2 h
  cases l <;> cases m <;>
    simp only [Method.severity] at hn <;>
    simp only [emit, Debugf, Infof, Warnf, Errorf, getLoggerAndLevel, hl] <;>
    rw [if_neg hn] <;>
    refine ⟨_, ?_, ?_, ?_, rfl⟩ <;>
    first | rfl | exact hl

theorem emit_forwarded (m : Method) (f : String) (a : List Value) (w : World) (l : Impl)
    (hl : w._logger = some l) (h : w._level ≤ m.severity) :
    (emit m f a w).calls = w.calls ++ [⟨l, m, f, a⟩] := by
  obtain ⟨w1, _, _, hc, he⟩ := emit_forwarded_eq m f a w l hl h
  rw [he, Body.exec_calls, hc]

theorem append_singleton_ne {α : Type} (xs : List α) (x : α) : xs ++ [x] ≠ xs := by
  intro h
  have := congrArg List.length h
  simp at this

theorem emit_cases (m : Method) (f : String) (a : List Value) (w : World) :
    emit m f a w = w ∨
    ∃ (l : Impl) (w1 : World), w._logger = some l ∧ w1._level = w._level ∧
      w1._logger = some l ∧ emit m f a w = (l.body m).exec w1 := by
  cases hl : w._logger with
  | none => exact Or.inl (emit_nil m f a w hl)
  | some l =>
    by_cases h : w._level ≤ m.severity
    · obtain ⟨w1, h1, h2, _, h4⟩ := emit_forwarded_eq m f a w l hl h
      exact Or.inr ⟨l, w1, rfl, h1, h2.trans hl, h4⟩
    · have hgt : w._level > m.severity := by
        have := (Level.not_gt_iff_le w._level m.severity).not.2 h
        exact not_not.1 this
      exact Or.inl (emit_suppressed m f a w hgt)

theorem emit_frame_of_ret (m : Method) (f : String) (a : List Value) (w : World)
    (h : ∀ l, w._logger = some l → l.body m = Body.ret) :
    (emit m f a w)._level = w._level ∧ (emit m f a w)._logger = w._logger := by
  rcases emit_cases m f a w with he | ⟨l, w1, hl, h1, h2, he⟩
  · rw [he]
    exact ⟨rfl, rfl⟩
  · rw [he, h l hl]
    exact ⟨h1, h2.trans hl.symm⟩

/-! ### Backends that never call `SetLevel` -/

theorem Body.exec_noSetLevel : ∀ (b : Body) (w : World), b.noSetLevel = true →
    (∀ l, w._logger = some l → l.noSetLevel = true) →
    (b.exec w)._level = w._level ∧ ∀ l, (b.exec w)._logger = some l → l.noSetLevel = true
  | Body.ret, _, _, hw => ⟨rfl, hw⟩
  | Body.setLevel _ _, _, hb, _ => by
    have hf : false = true := hb
    cases hf
  | Body.setLoggerNil rest, w, hb, _ =>
    Body.exec_noSetLevel rest (SetLogger none w) hb (by
      intro l hl
      have hn : (none : Logger) = some l := hl
      cases hn)
  | Body.setLogger logger rest, w, hb, _ => by
    have hb2 : (logger.noSetLevel && rest.noSetLevel) = true := hb
    have h2 : logger.noSetLevel = true ∧ rest.noSetLevel = true := by
      simpa [Bool.and_eq_true] using hb2
    exact Body.exec_noSetLevel rest (SetLogger (some logger) w) h2.2 (by
      intro l hl
      have hn : some logger = some l := hl
      cases hn
      exact h2.1)

theorem Impl.body_noSetLevel (l : Impl) (m : Method) (h : l.noSetLevel = true) :
    (l.body m).noSetLevel = true := by
  cases l with
  | simpleLogger => rfl
  | custom id => rfl
  | reentrant id d i wn e =>
    have h2 : (d.noSetLevel && i.noSetLevel && wn.noSetLevel && e.noSetLevel) = true := h
    simp only [Bool.and_eq_true] at h2
    cases m
    · exact h2.1.1.1
    · exact h2.1.1.2
    · exact h2.1.2
    · exact h2.2

theorem emit_noSetLevel (m : Method) (f : String) (a : List Value) (w : World)
    (hw : ∀ l, w._logger = some l → l.noSetLevel = true) :
    (emit m f a w)._level = w._level ∧
    ∀ l, (emit m f a w)._logger = some l → l.noSetLevel = true := by
  rcases emit_cases m f a w with he | ⟨l, w1, hl, h1, h2, he⟩
  · rw [he]
    exact ⟨rfl, hw⟩
  · rw [he]
    have hw1 : ∀ k, w1._logger = some k → k.noSetLevel = true := by
      intro k hk
      exact hw k (hl.trans (h2.symm.trans hk))
    have := Body.exec_noSetLevel (l.body m) w1 (Impl.body_noSetLevel l m (hw l hl)) hw1
    exact ⟨this.1.trans h1, this.2⟩

theorem step_noSetLevel (w : World) (op : Op)
    (h1 : ∀ x, op ≠ Op.SetLevel x)
    (h2 : ∀ l, op = Op.SetLogger (some l) → l.noSetLevel = true)
    (hw : ∀ l, w._logger = some l → l.noSetLevel = true) :
    (step w op)._level = w._level ∧
    ∀ l, (step w op)._logger = some l → l.noSetLevel = true := by
  cases op with
  | SetLevel x => exact absurd rfl (h1 x)
  | SetLogger logger =>
    refine ⟨rfl, ?_⟩
    intro l hl
    have hn : logger = some l := hl
    exact h2 l (by rw [hn])
  | GetLevel => exact ⟨rfl, hw⟩
  | IsDebugEnabled => exact ⟨rfl, hw⟩
  | Debugf f a => exact emit_noSetLevel Method.Debugf f a w hw
  | Infof f a => exact emit_noSetLevel Method.Infof f a w hw
  | Warnf f a => exact emit_noSetLevel Method.Warnf f a w hw
  | Errorf f a => exact emit_noSetLevel Method.Errorf f a w hw

theorem run_noSetLevel (ops : List Op) (w : World)
    (hw : ∀ l, w._logger = some l → l.noSetLevel = true)
    (h : ∀ op ∈ ops, (∀ x, op ≠ Op.SetLevel x) ∧
      ∀ l, op = Op.SetLogger (some l) → l.noSetLevel = true) :
    (run w ops)._level = w._level := by
  induction ops generalizing w with
  | nil => rfl
  | cons op rest ih =>
    have hop := h op (List.mem_cons_self op rest)
    have hrest : ∀ o ∈ rest, (∀ x, o ≠ Op.SetLevel x) ∧
        ∀ l, o = Op.SetLogger (some l) → l.noSetLevel = true :=
      fun o ho => h o (List.mem_cons_of_mem op ho)
    have hs := step_noSetLevel w op hop.1 hop.2 hw
    show (run (step w op) rest)._level = w._level
    rw [ih (step w op) hs.2 hrest, hs.1]

theorem emit_calls_cases (m : Method) (f : String) (a : List Value) (w : World) :
    (emit m f a w).calls = w.calls ∨
    ∃ l, w._logger = some l ∧ (emit m f a w).calls = w.calls ++ [⟨l, m, f, a⟩] := by
  cases hl : w._logger with
  | none => exact Or.inl (by rw [emit_nil m f a w hl])
  | some l =>
    by_cases h : w._level ≤ m.severity
    · exact Or.inr ⟨l, rfl, emit_forwarded m f a w l hl h⟩
    · have hgt : w._level > m.severity := by
        have := (Level.not_gt_iff_le w._level m.severity).not.2 h
        exact not_not.1 this
      exact Or.inl (by rw [emit_suppressed m f a w hgt])

theorem emit_calls_extend (m : Method) (f : String) (a : List Value) (w : World) :
    ∃ xs, (emit m f a w).calls = w.calls ++ xs ∧ ∀ c ∈ xs, some c.receiver = w._logger := by
  rcases emit_calls_cases m f a w with h | ⟨l, hl, h⟩
  · exact ⟨[], by simp [h], by simp⟩
  · refine ⟨[⟨l, m, f, a⟩], h, ?_⟩
    intro c hc
    rw [List.mem_singleton] at hc
    rw [hc, hl]

theorem step_calls_extend (w : World) (op : Op) :
    ∃ xs, (step w op).calls = w.calls ++ xs ∧ ∀ c ∈ xs, some c.receiver = w._logger := by
  cases op with
  | SetLevel x => exact ⟨[], by simp [step, SetLevel], by simp⟩
  | SetLogger l => exact ⟨[], by simp [step, SetLogger], by simp⟩
  | GetLevel => exact ⟨[], by simp [step], by simp⟩
  | IsDebugEnabled => exact ⟨[], by simp [step], by simp⟩
  | Debugf f a => exact emit_calls_extend Method.Debugf f a w
  | Infof f a => exact emit_calls_extend Method.Infof f a w
  | Warnf f a => exact emit_calls_extend Method.Warnf f a w
  | Errorf f a => exact emit_calls_extend Method.Errorf f a w

/-! ### Backends that never install a given `Logger` value -/

theorem Body.exec_neverInstalls (A : Logger) : ∀ (b : Body) (w : World),
    b.neverInstalls A = true → w._logger ≠ A →
    (∀ l, w._logger = some l → l.neverInstalls A = true) →
    (b.exec w)._logger ≠ A ∧ ∀ l, (b.exec w)._logger = some l → l.neverInstalls A = true
  | Body.ret, _, _, hA, hw => ⟨hA, hw⟩
  | Body.setLevel level rest, w, hb, hA, hw =>
    Body.exec_neverInstalls A rest (SetLevel level w) hb hA hw
  | Body.setLoggerNil rest, w, hb, _, _ => by
    have hb2 : (decide (A ≠ none) && rest.neverInstalls A) = true := hb
    have h2 : A ≠ none ∧ rest.neverInstalls A = true := by
      simpa [Bool.and_eq_true] using hb2
    exact Body.exec_neverInstalls A rest (SetLogger none w) h2.2
      (fun h => h2.1 h.symm) (by
        intro l hl
        have hn : (none : Logger) = some l := hl
        cases hn)
  | Body.setLogger logger rest, w, hb, _, _ => by
    have hb2 : (decide (A ≠ some logger) && logger.neverInstalls A
        && rest.neverInstalls A) = true := hb
    have h2 : (A ≠ some logger ∧ logger.neverInstalls A = true) ∧
        rest.neverInstalls A = true := by
      simpa [Bool.and_eq_true] using hb2
    exact Body.exec_neverInstalls A rest (SetLogger (some logger) w) h2.2
      (fun h => h2.1.1 h.symm) (by
        intro l hl
        have hn : some logger = some l := hl
        cases hn
        exact h2.1.2)

theorem Impl.body_neverInstalls (A : Logger) (l : Impl) (m : Method)
    (h : l.neverInstalls A = true) : (l.body m).neverInstalls A = true := by
  cases l with
  | simpleLogger => rfl
  | custom id => rfl
  | reentrant id d i wn e =>
    have h2 : (d.neverInstalls A && i.neverInstalls A && wn.neverInstalls A
        && e.neverInstalls A) = true := h
    simp only [Bool.and_eq_true] at h2
    cases m
    · exact h2.1.1.1
    · exact h2.1.1.2
    · exact h2.1.2
    · exact h2.2

theorem emit_neverInstalls (A : Logger) (m : Method) (f : String) (a : List Value)
    (w : World) (hA : w._logger ≠ A)
    (hw : ∀ l, w._logger = some l → l.neverInstalls A = true) :
    (emit m f a w)._logger ≠ A ∧
    ∀ l, (emit m f a w)._logger = some l → l.neverInstalls A = true := by
  rcases emit_cases m f a w with he | ⟨l, w1, hl, _, h2, he⟩
  · rw [he]
    exact ⟨hA, hw⟩
  · rw [he]
    have hA1 : w1._logger ≠ A := by
      rw [h2, ← hl]
      exact hA
    have hw1 : ∀ k, w1._logger = some k → k.neverInstalls A = true := by
      intro k hk
      exact hw k (hl.trans (h2.symm.trans hk))
    exact Body.exec_neverInstalls A (l.body m) w1
      (Impl.body_neverInstalls A l m (hw l hl)) hA1 hw1

theorem step_neverInstalls (A : Logger) (w : World) (op : Op)
    (h1 : op ≠ Op.SetLogger A)
    (h2 : ∀ l, op = Op.SetLogger (some l) → l.neverInstalls A = true)
    (hA : w._logger ≠ A)
    (hw : ∀ l, w._logger = some l → l.neverInstalls A = true) :
    (step w op)._logger ≠ A ∧
    ∀ l, (step w op)._logger = some l → l.neverInstalls A = true := by
  cases op with
  | SetLevel x => exact ⟨hA, hw⟩
  | SetLogger logger =>
    refine ⟨?_, ?_⟩
    · intro h
      have hn : logger = A := h
      exact h1 (by rw [hn])
    · intro l hl
      have hn : logger = some l := hl
      exact h2 l (by rw [hn])
  | GetLevel => exact ⟨hA, hw⟩
  | IsDebugEnabled => exact ⟨hA, hw⟩
  | Debugf f a => exact emit_neverInstalls A Method.Debugf f a w hA hw
  | Infof f a => exact emit_neverInstalls A Method.Infof f a w hA hw
  | Warnf f a => exact emit_neverInstalls A Method.Warnf f a w hA hw
  | Errorf f a => exact emit_neverInstalls A Method.Errorf f a w hA hw

theorem run_calls_avoid (A : Logger) (ops : List Op) (w : World) (hA : w._logger ≠ A)
    (hw : ∀ l, w._logger = some l → l.neverInstalls A = true)
    (hops : ∀ op ∈ ops, op ≠ Op.SetLogger A ∧
      ∀ l, op = Op.SetLogger (some l) → l.neverInstalls A = true) :
    ∃ xs, (run w ops).calls = w.calls ++ xs ∧ ∀ c ∈ xs, some c.receiver ≠ A := by
  induction ops generalizing w with
  | nil => exact ⟨[], by simp [run], by simp⟩
  | cons op rest ih =>
    have hop := hops op (List.mem_cons_self op rest)
    have hrest : ∀ o ∈ rest, o ≠ Op.SetLogger A ∧
        ∀ l, o = Op.SetLogger (some l) → l.neverInstalls A = true :=
      fun o ho => hops o (List.mem_cons_of_mem op ho)
    have hs := step_neverInstalls A w op hop.1 hop.2 hA hw
    obtain ⟨xs, hxs, hxsA⟩ := step_calls_extend w op
    obtain ⟨ys, hys, hysA⟩ := ih (step w op) hs.1 hs.2 hrest
    refine ⟨xs ++ ys, ?_, ?_⟩
    · show (run (step w op) rest).calls = w.calls ++ (xs ++ ys)
      rw [hys, hxs, List.append_assoc]
    · intro c hc
      rcases List.mem_append.1 hc with h | h
      · rw [hxsA c h]; exact hA
      · exact hysA c h

/-! ### Backends that never call `SetLogger` -/

theorem Body.exec_noSetLogger : ∀ (b : Body) (w : World), b.noSetLogger = true →
    (b.exec w)._logger = w._logger
  | Body.ret, _, _ => rfl
  | Body.setLevel level rest, w, hb => Body.exec_noSetLogger rest (SetLevel level w) hb
  | Body.setLoggerNil _, _, hb => by
    have hf : false = true := hb
    cases hf
  | Body.setLogger _ _, _, hb => by
    have hf : false = true := hb
    cases hf

theorem Impl.body_noSetLogger (l : Impl) (m : Method) (h : l.noSetLogger = true) :
    (l.body m).noSetLogger = true := by
  unfold Impl.noSetLogger at h
  simp only [Bool.and_eq_true] at h
  cases m
  · exact h.1.1.1
  · exact h.1.1.2
  · exact h.1.2
  · exact h.2

theorem emit_logger_of_noSetLogger (m : Method) (f : String) (a : List Value) (w : World)
    (b : Impl) (hb : b.noSetLogger = true) (hw : w._logger = some b) :
    (emit m f a w)._logger = some b := by
  rcases emit_cases m f a w with he | ⟨l, w1, hl, _, h2, he⟩
  · rw [he]
    exact hw
  · have hlb : l = b := Option.some.inj (hl.symm.trans hw)
    rw [he, Body.exec_noSetLogger (l.body m) w1 (Impl.body_noSetLogger l m (hlb ▸ hb)), h2, hlb]

theorem step_logger_of_only (w : World) (op : Op) (b : Impl) (hb : b.noSetLogger = true)
    (hw : w._logger = some b) (hop : ∀ l, op = Op.SetLogger l → l = some b) :
    (step w op)._logger = some b := by
  cases op with
  | SetLevel x => exact hw
  | SetLogger logger => exact hop logger rfl
  | GetLevel => exact hw
  | IsDebugEnabled => exact hw
  | Debugf f a => exact emit_logger_of_noSetLogger Method.Debugf f a w b hb hw
  | Infof f a => exact emit_logger_of_noSetLogger Method.Infof f a w b hb hw
  | Warnf f a => exact emit_logger_of_noSetLogger Method.Warnf f a w b hb hw
  | Errorf f a => exact emit_logger_of_noSetLogger Method.Errorf f a w b hb hw

theorem run_logger_of_only (b : Impl) (hb : b.noSetLogger = true) (ops : List Op) (w : World)
    (hw : w._logger = some b)
    (hops : ∀ op ∈ ops, ∀ l, op = Op.SetLogger l → l = some b) :
    (run w ops)._logger = some b := by
  induction ops generalizing w with
  | nil => exact hw
  | cons op rest ih =>
    have hrest : ∀ o ∈ rest, ∀ l, o = Op.SetLogger l → l = some b :=
      fun o ho => hops o (List.mem_cons_of_mem op ho)
    have hw2 : (step w op)._logger = some b :=
      step_logger_of_only w op b hb hw (hops op (List.mem_cons_self op rest))
    exact ih (step w op) hw2 hrest

theorem fmt.render_literal (p : List Char) (hp : '%' ∉ p) (cs : List Char)
    (vs : List Value) :
    fmt.render false (p ++ cs) vs = (fmt.render false cs vs).map (p ++ ·) := by
  induction p with
  | nil => simp
  | cons c p ih =>
    have hc : c ≠ '%' := fun h => hp (by rw [h]; exact List.mem_cons_self _ _)
    have hp2 : '%' ∉ p := fun h => hp (List.mem_cons_of_mem c h)
    show fmt.render false (c :: (p ++ cs)) vs = _
    rw [fmt.render, if_neg hc, ih hp2, Option.map_map]
    rfl

theorem fmt.Sprintf_literal_tag (tag : String) (htag : '%' ∉ tag.data) (format : String)
    (a : List Value) :
    fmt.Sprintf (tag ++ format) a = (fmt.Sprintf format a).map (tag ++ ·) := by
  unfold fmt.Sprintf
  rw [String.data_append, fmt.render_literal tag.data htag, Option.map_map, Option.map_map]
  rfl

/-! ## The claims -/

/-- C1: with a non-nil backend installed, an emit function of the facade
invokes the backend exactly when the threshold is at most the severity
constant of that function, and strictly below the threshold the call changes
nothing at all (no backend method is invoked, nothing is printed).  For named
severities S1 < S2 <= S3, with the threshold set to S2 the call at S1 adds no
backend call and the call at S3 adds one. -/
theorem C1_emit_gated_by_threshold (w : World) (l : Impl) (hl : w._logger = some l)
    (m : Method) (format : String) (args : List Value) :
    ((emit m format args w).calls ≠ w.calls ↔ w._level ≤ m.severity) ∧
    (w._level > m.severity → emit m format args w = w) ∧
    (∀ m1 m2 m3 : Method, m1.severity < m2.severity → m2.severity ≤ m3.severity →
      (emit m1 format args (SetLevel m2.severity w)).calls = w.calls ∧
      (emit m3 format args (SetLevel m2.severity w)).calls
        = w.calls ++ [⟨l, m3, format, args⟩]) := by
  refine ⟨⟨fun hne => ?_, fun hle => ?_⟩, emit_suppressed m format args w, ?_⟩
  · by_contra hgt
    have hgt2 : w._level > m.severity := by
      have := (Level.not_gt_iff_le w._level m.severity).not.2 hgt
      exact not_not.1 this
    exact hne (by rw [emit_suppressed m format args w hgt2])
  · rw [emit_forwarded m format args w l hl hle]
    exact append_singleton_ne _ _
  · intro m1 m2 m3 h12 h23
    constructor
    · rw [emit_suppressed m1 format args (SetLevel m2.severity w) h12]
      rfl
    · exact emit_forwarded m3 format args (SetLevel m2.severity w) l hl h23

/-- Witness for C1 in the initial state (default backend, threshold Info). -/
theorem C1_emit_gated_by_threshold_witness :
    init._logger = some Impl.simpleLogger ∧
    ((emit Method.Debugf "x=%d" [Value.int 1] init).calls ≠ init.calls
      ↔ init._level ≤ Method.Debugf.severity) ∧
    ((emit Method.Warnf "x=%d" [Value.int 1] init).calls ≠ init.calls
      ↔ init._level ≤ Method.Warnf.severity) :=
  ⟨rfl,
   (C1_emit_gated_by_threshold init Impl.simpleLogger rfl Method.Debugf "x=%d" [Value.int 1]).1,
   (C1_emit_gated_by_threshold init Impl.simpleLogger rfl Method.Warnf "x=%d" [Value.int 1]).1⟩

/-- C2: when the backend is non-nil and the threshold does not exceed the
severity of the emit function called, the call adds exactly one invocation to
the backend, on the method of the same name, carrying the caller's format
string and argument list unchanged. -/
theorem C2_forwards_same_method_same_arguments (w : World) (l : Impl)
    (hl : w._logger = some l) (format : String) (args : List Value) :
    (¬ w._level > LevelDebug →
      (Debugf format args w).calls = w.calls ++ [⟨l, Method.Debugf, format, args⟩]) ∧
    (¬ w._level > LevelInfo →
      (Infof format args w).calls = w.calls ++ [⟨l, Method.Infof, format, args⟩]) ∧
    (¬ w._level > LevelWarn →
      (Warnf format args w).calls = w.calls ++ [⟨l, Method.Warnf, format, args⟩]) ∧
    (¬ w._level > LevelError →
      (Errorf format args w).calls = w.calls ++ [⟨l, Method.Errorf, format, args⟩]) := by
  refine ⟨fun h => ?_, fun h => ?_, fun h => ?_, fun h => ?_⟩
  · exact emit_forwarded Method.Debugf format args w l hl ((Level.not_gt_iff_le _ _).1 h)
  · exact emit_forwarded Method.Infof format args w l hl ((Level.not_gt_iff_le _ _).1 h)
  · exact emit_forwarded Method.Warnf format args w l hl ((Level.not_gt_iff_le _ _).1 h)
  · exact emit_forwarded Method.Errorf format args w l hl ((Level.not_gt_iff_le _ _).1 h)

/-- Witness for C2: a caller-supplied backend at threshold Info receives the
Errorf call with its two arguments in order. -/
theorem C2_forwards_same_method_same_arguments_witness :
    (SetLogger (some (Impl.custom 7)) init)._logger = some (Impl.custom 7) ∧
    ¬ (SetLogger (some (Impl.custom 7)) init)._level > LevelError ∧
    (Errorf "%s=%d" [Value.str "k", Value.int 2] (SetLogger (some (Impl.custom 7)) init)).calls
      = [⟨Impl.custom 7, Method.Errorf, "%s=%d", [Value.str "k", Value.int 2]⟩] :=
  ⟨rfl, by decide,
   (C2_forwards_same_method_same_arguments (SetLogger (some (Impl.custom 7)) init)
      (Impl.custom 7) rfl "%s=%d" [Value.str "k", Value.int 2]).2.2.2 (by decide)⟩

/-- C3: with a nil backend installed, each of Debugf, Infof, Warnf and Errorf
returns the state it was called in: no backend method is invoked, nothing is
printed, and threshold and backend are as before, whatever the threshold,
format and arguments. -/
theorem C3_nil_backend_is_noop (w : World) (h : w._logger = none)
    (format : String) (args : List Value) :
    Debugf format args w = w ∧ Infof format args w = w ∧
    Warnf format args w = w ∧ Errorf format args w = w :=
  ⟨emit_nil Method.Debugf format args w h, emit_nil Method.Infof format args w h,
   emit_nil Method.Warnf format args w h, emit_nil Method.Errorf format args w h⟩

/-- Witness for C3: the state reached by `SetLogger(nil)` from the initial
state, with the threshold lowered to Debug. -/
theorem C3_nil_backend_is_noop_witness :
    (SetLogger none (SetLevel LevelDebug init))._logger = none ∧
    Debugf "x=%d" [Value.int 1] (SetLogger none (SetLevel LevelDebug init))
      = SetLogger none (SetLevel LevelDebug init) ∧
    Errorf "x=%d" [Value.int 1] (SetLogger none (SetLevel LevelDebug init))
      = SetLogger none (SetLevel LevelDebug init) :=
  ⟨rfl,
   (C3_nil_backend_is_noop (SetLogger none (SetLevel LevelDebug init)) rfl
      "x=%d" [Value.int 1]).1,
   (C3_nil_backend_is_noop (SetLogger none (SetLevel LevelDebug init)) rfl
      "x=%d" [Value.int 1]).2.2.2⟩

/-- C4 as stated fails.  Start from a state whose installed backend is a
caller-supplied one whose Errorf method calls SetLevel(LevelDebug).  After
SetLevel(LevelWarn), the single call Errorf("boom"), which is not a SetLevel
call, passes the level check (Warn <= Error) and runs the backend method after the
read lock is released; GetLevel then returns LevelDebug, not LevelWarn. -/
theorem C4_counterexample :
    Op.Errorf "boom" [] ≠ Op.SetLevel LevelDebug ∧
    GetLevel (SetLevel LevelWarn
      (SetLogger (some (Impl.reentrant 1 Body.ret Body.ret Body.ret
        (Body.setLevel LevelDebug Body.ret))) init)) = LevelWarn ∧
    GetLevel (run
      (SetLevel LevelWarn
        (SetLogger (some (Impl.reentrant 1 Body.ret Body.ret Body.ret
          (Body.setLevel LevelDebug Body.ret))) init))
      [Op.Errorf "boom" []]) = LevelDebug ∧
    LevelDebug ≠ LevelWarn := by
  decide

/-- C4 (amended): for every int8 level X and every starting state, GetLevel
after SetLevel(X) returns X, also when any sequence of calls other than
SetLevel (the four emit functions, IsDebugEnabled, GetLevel, SetLogger) runs
in between, provided that no backend that gets installed calls SetLevel from
its own methods: not the backend of the starting state, not a backend
installed by a SetLogger of the sequence, and not a backend installed by a
backend method. -/
theorem C4_GetLevel_after_SetLevel (w : World) (X : Level) (ops : List Op)
    (hw : ∀ l, w._logger = some l → l.noSetLevel = true)
    (h : ∀ op ∈ ops, (∀ x, op ≠ Op.SetLevel x) ∧
      ∀ l, op = Op.SetLogger (some l) → l.noSetLevel = true) :
    GetLevel (run (SetLevel X w) ops) = X := by
  show (run (SetLevel X w) ops)._level = X
  rw [run_noSetLevel ops (SetLevel X w) hw h]
  rfl

/-- Witness for C4: the level -128 (not a named constant) survives emits, a
backend switch to nil, a switch to a backend whose Errorf method calls
SetLogger(nil), and the two readers. -/
theorem C4_GetLevel_after_SetLevel_witness :
    (∀ l, init._logger = some l → l.noSetLevel = true) ∧
    (∀ op ∈ [Op.Errorf "boom" [], Op.SetLogger none, Op.Debugf "x" [], Op.IsDebugEnabled,
        Op.SetLogger (some (Impl.reentrant 1 Body.ret Body.ret Body.ret
          (Body.setLoggerNil Body.ret))),
        Op.Errorf "y" [Value.nil], Op.GetLevel, Op.Warnf "z" []],
      (∀ x, op ≠ Op.SetLevel x) ∧
      ∀ l, op = Op.SetLogger (some l) → l.noSetLevel = true) ∧
    GetLevel (run (SetLevel ⟨-128, by decide, by decide⟩ init)
      [Op.Errorf "boom" [], Op.SetLogger none, Op.Debugf "x" [], Op.IsDebugEnabled,
        Op.SetLogger (some (Impl.reentrant 1 Body.ret Body.ret Body.ret
          (Body.setLoggerNil Body.ret))),
        Op.Errorf "y" [Value.nil], Op.GetLevel, Op.Warnf "z" []])
      = ⟨-128, by decide, by decide⟩ :=
  ⟨by intro l hl; cases hl; rfl,
   by simp [Impl.noSetLevel, Body.noSetLevel],
   C4_GetLevel_after_SetLevel init ⟨-128, by decide, by decide⟩ _
     (by intro l hl; cases hl; rfl)
     (by simp [Impl.noSetLevel, Body.noSetLevel])⟩

/-- C5: IsDebugEnabled returns true exactly when the threshold is at most
LevelDebug; after SetLevel to each named level it is true for LevelDebug and
false for LevelInfo, LevelWarn and LevelError. -/
theorem C5_IsDebugEnabled_iff (w : World) :
    (IsDebugEnabled w = true ↔ w._level ≤ LevelDebug) ∧
    IsDebugEnabled (SetLevel LevelDebug w) = true ∧
    IsDebugEnabled (SetLevel LevelInfo w) = false ∧
    IsDebugEnabled (SetLevel LevelWarn w) = false ∧
    IsDebugEnabled (SetLevel LevelError w) = false := by
  refine ⟨?_, ?_, ?_, ?_, ?_⟩
  · simp [IsDebugEnabled]
  · simp [IsDebugEnabled, SetLevel, Level.le_def, LevelDebug]
  · simp [IsDebugEnabled, SetLevel, Level.le_def, LevelDebug, LevelInfo]
  · simp [IsDebugEnabled, SetLevel, Level.le_def, LevelDebug, LevelWarn]
  · simp [IsDebugEnabled, SetLevel, Level.le_def, LevelDebug, LevelError]

/-- C6 as stated fails at three inputs.  First, with B equal to the installed
backend A (here the default backend, installed again from the initial state)
the later call Errorf("boom"), a sequence that contains no SetLogger at all,
invokes a method of A.  Second, after SetLogger(B) followed by SetLogger(C)
for a third backend C, an Errorf call of sufficient severity invokes C and
makes no invocation on B.  Third, when B is a caller-supplied backend whose
Errorf method calls SetLogger(A), the caller's sequence Errorf("x"),
Errorf("y") contains no SetLogger, yet the second call, of sufficient
severity, invokes A and not B. -/
theorem C6_counterexample :
    init._logger = some Impl.simpleLogger ∧
    Op.Errorf "boom" [] ≠ Op.SetLogger init._logger ∧
    newCalls init (run (SetLogger (some Impl.simpleLogger) init) [Op.Errorf "boom" []])
      = [⟨Impl.simpleLogger, Method.Errorf, "boom", []⟩] ∧
    (run (SetLogger (some (Impl.custom 1)) init)
        [Op.SetLogger (some (Impl.custom 2))])._level ≤ LevelError ∧
    newCalls init (run (SetLogger (some (Impl.custom 1)) init)
        [Op.SetLogger (some (Impl.custom 2)), Op.Errorf "boom" []])
      = [⟨Impl.custom 2, Method.Errorf, "boom", []⟩] ∧
    Impl.reentrant 1 Body.ret Body.ret Body.ret (Body.setLogger Impl.simpleLogger Body.ret)
      ≠ Impl.simpleLogger ∧
    (run (SetLogger (some (Impl.reentrant 1 Body.ret Body.ret Body.ret
        (Body.setLogger Impl.simpleLogger Body.ret))) init)
      [Op.Errorf "x" []])._level ≤ LevelError ∧
    newCalls init
        (run (SetLogger (some (Impl.reentrant 1 Body.ret Body.ret Body.ret
          (Body.setLogger Impl.simpleLogger Body.ret))) init)
        [Op.Errorf "x" [], Op.Errorf "y" []])
      = [⟨Impl.reentrant 1 Body.ret Body.ret Body.ret
            (Body.setLogger Impl.simpleLogger Body.ret), Method.Errorf, "x", []⟩,
         ⟨Impl.simpleLogger, Method.Errorf, "y", []⟩] := by
  decide

/-- C6 (amended): for a non-nil backend B whose methods do not call
SetLogger, after SetLogger(B) and as long as no other backend is installed,
every emit call whose severity is at least the threshold invokes B (exactly
once, on the method of that severity).  And when B differs from the
previously installed backend A, then in every sequence of later calls that
does not reinstall A, where neither B nor any backend installed later
reinstalls A from its own methods, no invocation at all is made on A. -/
theorem C6_SetLogger_switches_backend (w : World) (b : Impl) (ops : List Op) :
    (b.noSetLogger = true →
      (∀ op ∈ ops, ∀ l, op = Op.SetLogger l → l = some b) →
      ∀ (m : Method) (format : String) (args : List Value),
        (run (SetLogger (some b) w) ops)._level ≤ m.severity →
        newCalls (run (SetLogger (some b) w) ops)
            (emit m format args (run (SetLogger (some b) w) ops))
          = [⟨b, m, format, args⟩]) ∧
    (w._logger ≠ some b → b.neverInstalls w._logger = true →
      (∀ op ∈ ops, op ≠ Op.SetLogger w._logger ∧
        ∀ l, op = Op.SetLogger (some l) → l.neverInstalls w._logger = true) →
      ∀ c ∈ newCalls w (run (SetLogger (some b) w) ops), some c.receiver ≠ w._logger) := by
  constructor
  · intro hb hops m format args hle
    have hl : (run (SetLogger (some b) w) ops)._logger = some b :=
      run_logger_of_only b hb ops (SetLogger (some b) w) rfl hops
    unfold newCalls
    rw [emit_forwarded m format args _ b hl hle, List.drop_left]
  · intro hAB hb hops c hc
    have hA : (SetLogger (some b) w)._logger ≠ w._logger := fun h => hAB h.symm
    have hw : ∀ l, (SetLogger (some b) w)._logger = some l →
        l.neverInstalls w._logger = true := by
      intro l hl
      have hn : some b = some l := hl
      cases hn
      exact hb
    obtain ⟨xs, hxs, hxsA⟩ :=
      run_calls_avoid w._logger ops (SetLogger (some b) w) hA hw hops
    have hcalls : (run (SetLogger (some b) w) ops).calls = w.calls ++ xs := hxs
    unfold newCalls at hc
    rw [hcalls, List.drop_left] at hc
    exact hxsA c hc

/-- Witness for C6: the default backend is replaced by a caller-supplied one
whose Debugf method calls SetLevel(LevelError); later calls include emits at
every severity, a threshold change, a switch to nil and a switch to a backend
whose Warnf method calls SetLogger(nil). -/
theorem C6_SetLogger_switches_backend_witness :
    init._logger ≠ some (Impl.reentrant 1 (Body.setLevel LevelError Body.ret)
      Body.ret Body.ret Body.ret) ∧
    (Impl.reentrant 1 (Body.setLevel LevelError Body.ret)
      Body.ret Body.ret Body.ret).neverInstalls init._logger = true ∧
    (∀ op ∈ [Op.Errorf "boom" [], Op.SetLevel LevelDebug, Op.Debugf "d" [Value.int 3],
        Op.SetLogger none, Op.Warnf "w" [],
        Op.SetLogger (some (Impl.reentrant 2 Body.ret Body.ret
          (Body.setLoggerNil Body.ret) Body.ret)),
        Op.Warnf "i" []],
      op ≠ Op.SetLogger init._logger ∧
      ∀ l, op = Op.SetLogger (some l) → l.neverInstalls init._logger = true) ∧
    (∀ c ∈ newCalls init (run (SetLogger (some (Impl.reentrant 1
          (Body.setLevel LevelError Body.ret) Body.ret Body.ret Body.ret)) init)
        [Op.Errorf "boom" [], Op.SetLevel LevelDebug, Op.Debugf "d" [Value.int 3],
          Op.SetLogger none, Op.Warnf "w" [],
          Op.SetLogger (some (Impl.reentrant 2 Body.ret Body.ret
            (Body.setLoggerNil Body.ret) Body.ret)),
          Op.Warnf "i" []]), some c.receiver ≠ init._logger) ∧
    (Impl.reentrant 1 (Body.setLevel LevelError Body.ret)
      Body.ret Body.ret Body.ret).noSetLogger = true ∧
    newCalls
        (run (SetLogger (some (Impl.reentrant 1 (Body.setLevel LevelError Body.ret)
          Body.ret Body.ret Body.ret)) init) [Op.SetLevel LevelDebug, Op.Debugf "d" []])
        (emit Method.Errorf "w" []
          (run (SetLogger (some (Impl.reentrant 1 (Body.setLevel LevelError Body.ret)
            Body.ret Body.ret Body.ret)) init) [Op.SetLevel LevelDebug, Op.Debugf "d" []]))
      = [⟨Impl.reentrant 1 (Body.setLevel LevelError Body.ret) Body.ret Body.ret Body.ret,
          Method.Errorf, "w", []⟩] :=
  ⟨by decide, by decide,
   by simp [init, Impl.neverInstalls, Body.neverInstalls],
   (C6_SetLogger_switches_backend init
      (Impl.reentrant 1 (Body.setLevel LevelError Body.ret) Body.ret Body.ret Body.ret) _).2
      (by decide) (by decide) (by simp [init, Impl.neverInstalls, Body.neverInstalls]),
   by decide,
   (C6_SetLogger_switches_backend init
      (Impl.reentrant 1 (Body.setLevel LevelError Body.ret) Body.ret Body.ret Body.ret)
      [Op.SetLevel LevelDebug, Op.Debugf "d" []]).1
      (by decide) (by simp) Method.Errorf "w" [] (by decide)⟩

/-- C7: in the initial state the threshold is LevelInfo (GetLevel returns
LevelInfo, IsDebugEnabled returns false) and the installed backend is the
non-nil default backend simpleLogger. -/
theorem C7_initial_state :
    init._level = LevelInfo ∧ GetLevel init = LevelInfo ∧ IsDebugEnabled init = false ∧
    init._logger = some Impl.simpleLogger ∧ init._logger ≠ none ∧
    init.calls = [] ∧ init.printed = [] := by
  refine ⟨rfl, rfl, by decide, rfl, by decide, rfl, rfl⟩

/-- C8: end-to-end scenario from the initial state.  Debugf("x=%d", 1) makes
no backend call and prints nothing.  Infof("x=%d", 1) then invokes the default
backend once, which makes exactly one print call, template "[INFO] x=%d" with
argument 1, whose message is the tag [INFO], a space, and x=1.  After SetLevel(LevelWarn), Infof of any format and
arguments changes nothing, and Errorf("boom") makes exactly one print call,
whose message is the tag [ERROR], a space, and boom. -/
theorem C8_end_to_end_scenario :
    newCalls init (Debugf "x=%d" [Value.int 1] init) = [] ∧
    newPrinted init (Debugf "x=%d" [Value.int 1] init) = [] ∧
    newPrinted (Debugf "x=%d" [Value.int 1] init)
        (Infof "x=%d" [Value.int 1] (Debugf "x=%d" [Value.int 1] init))
      = [⟨"[INFO] x=%d", [Value.int 1]⟩] ∧
    (newPrinted (Debugf "x=%d" [Value.int 1] init)
        (Infof "x=%d" [Value.int 1] (Debugf "x=%d" [Value.int 1] init))).map PrintCall.message
      = [some ("[INFO]" ++ " " ++ "x=1")] ∧
    newCalls (Debugf "x=%d" [Value.int 1] init)
        (Infof "x=%d" [Value.int 1] (Debugf "x=%d" [Value.int 1] init))
      = [⟨Impl.simpleLogger, Method.Infof, "x=%d", [Value.int 1]⟩] ∧
    (∀ (format : String) (args : List Value),
      Infof format args
          (SetLevel LevelWarn (Infof "x=%d" [Value.int 1] (Debugf "x=%d" [Value.int 1] init)))
        = SetLevel LevelWarn (Infof "x=%d" [Value.int 1] (Debugf "x=%d" [Value.int 1] init))) ∧
    newPrinted
        (SetLevel LevelWarn (Infof "x=%d" [Value.int 1] (Debugf "x=%d" [Value.int 1] init)))
        (Errorf "boom" []
          (SetLevel LevelWarn (Infof "x=%d" [Value.int 1] (Debugf "x=%d" [Value.int 1] init))))
      = [⟨"[ERROR] boom", []⟩] ∧
    (newPrinted
        (SetLevel LevelWarn (Infof "x=%d" [Value.int 1] (Debugf "x=%d" [Value.int 1] init)))
        (Errorf "boom" []
          (SetLevel LevelWarn
            (Infof "x=%d" [Value.int 1] (Debugf "x=%d" [Value.int 1] init))))).map
        PrintCall.message
      = [some ("[ERROR]" ++ " " ++ "boom")] := by
  refine ⟨by decide, by decide, by decide, by decide, by decide, ?_, by decide, by decide⟩
  intro format args
  exact emit_suppressed Method.Infof format args
    (SetLevel LevelWarn (Infof "x=%d" [Value.int 1] (Debugf "x=%d" [Value.int 1] init)))
    (by decide)

/-- C9: every operation of the default backend makes exactly one call of the
printer and changes nothing else; the template it passes is the bracketed tag
of its severity, one space, then the caller's format, and the arguments are
passed unchanged.  The message formatted from that template is the message
formatted from the caller's format with the tag and the space put in front. -/
theorem C9_simpleLogger_tags (format : String) (args : List Value) (w : World) :
    simpleLogger.Debugf format args w
      = { w with printed := w.printed ++ [⟨"[DEBUG]" ++ " " ++ format, args⟩] } ∧
    simpleLogger.Infof format args w
      = { w with printed := w.printed ++ [⟨"[INFO]" ++ " " ++ format, args⟩] } ∧
    simpleLogger.Warnf format args w
      = { w with printed := w.printed ++ [⟨"[WARN]" ++ " " ++ format, args⟩] } ∧
    simpleLogger.Errorf format args w
      = { w with printed := w.printed ++ [⟨"[ERROR]" ++ " " ++ format, args⟩] } ∧
    PrintCall.message ⟨"[DEBUG]" ++ " " ++ format, args⟩
      = (fmt.Sprintf format args).map ("[DEBUG]" ++ " " ++ ·) ∧
    PrintCall.message ⟨"[INFO]" ++ " " ++ format, args⟩
      = (fmt.Sprintf format args).map ("[INFO]" ++ " " ++ ·) ∧
    PrintCall.message ⟨"[WARN]" ++ " " ++ format, args⟩
      = (fmt.Sprintf format args).map ("[WARN]" ++ " " ++ ·) ∧
    PrintCall.message ⟨"[ERROR]" ++ " " ++ format, args⟩
      = (fmt.Sprintf format args).map ("[ERROR]" ++ " " ++ ·) := by
  refine ⟨rfl, rfl, rfl, rfl, ?_, ?_, ?_, ?_⟩
  · exact fmt.Sprintf_literal_tag ("[DEBUG]" ++ " ") (by decide) format args
  · exact fmt.Sprintf_literal_tag ("[INFO]" ++ " ") (by decide) format args
  · exact fmt.Sprintf_literal_tag ("[WARN]" ++ " ") (by decide) format args
  · exact fmt.Sprintf_literal_tag ("[ERROR]" ++ " ") (by decide) format args

/-- C10: the four severity constants have the values 1, 2, 4, 8, all within
the int8 range, are strictly ordered LevelDebug < LevelInfo < LevelWarn <
LevelError under the comparison the gating uses, and are pairwise distinct. -/
theorem C10_level_constants_ordered :
    LevelDebug.val = 1 ∧ LevelInfo.val = 2 ∧ LevelWarn.val = 4 ∧ LevelError.val = 8 ∧
    (∀ l ∈ [LevelDebug, LevelInfo, LevelWarn, LevelError], -128 ≤ l.val ∧ l.val ≤ 127) ∧
    LevelDebug < LevelInfo ∧ LevelInfo < LevelWarn ∧ LevelWarn < LevelError ∧
    LevelInfo > LevelDebug ∧ LevelWarn > LevelInfo ∧ LevelError > LevelWarn ∧
    LevelDebug ≠ LevelInfo ∧ LevelDebug ≠ LevelWarn ∧ LevelDebug ≠ LevelError ∧
    LevelInfo ≠ LevelWarn ∧ LevelInfo ≠ LevelError ∧ LevelWarn ≠ LevelError := by
  decide

/-! ## Further facts used by the behavioural claims -/

theorem newCalls_self (w : World) : newCalls w w = [] := by
  unfold newCalls
  exact List.drop_length w.calls

theorem emit_newCalls_iff (m : Method) (f : String) (a : List Value) (w : World) (l : Impl)
    (hl : w._logger = some l) :
    newCalls w (emit m f a w) = [⟨l, m, f, a⟩] ↔ w._level ≤ m.severity := by
  constructor
  · intro h
    by_contra hle
    have hgt : w._level > m.severity := by
      have := (Level.not_gt_iff_le w._level m.severity).not.2 hle
      exact not_not.1 this
    rw [emit_suppressed m f a w hgt, newCalls_self] at h
    exact absurd h (by simp)
  · intro hle
    unfold newCalls
    rw [emit_forwarded m f a w l hl hle, List.drop_left]

theorem emit_unchanged_iff (m : Method) (f : String) (a : List Value) (w : World) (l : Impl)
    (hl : w._logger = some l) :
    emit m f a w = w ↔ ¬ w._level ≤ m.severity := by
  constructor
  · intro h hle
    have hc := emit_forwarded m f a w l hl hle
    rw [h] at hc
    exact append_singleton_ne _ _ hc.symm
  · intro hle
    have hgt : w._level > m.severity := by
      have := (Level.not_gt_iff_le w._level m.severity).not.2 hle
      exact not_not.1 this
    exact emit_suppressed m f a w hgt

theorem Method.severity_cases (m : Method) :
    m.severity.val = 1 ∨ m.severity.val = 2 ∨ m.severity.val = 4 ∨ m.severity.val = 8 := by
  cases m
  · exact Or.inl rfl
  · exact Or.inr (Or.inl rfl)
  · exact Or.inr (Or.inr (Or.inl rfl))
  · exact Or.inr (Or.inr (Or.inr rfl))

/-- C12 as stated fails for the emit functions.  With a caller-supplied
backend whose Errorf method calls SetLevel(LevelDebug), the call
Errorf("boom") at threshold Info changes the threshold from LevelInfo to
LevelDebug; with one whose Errorf method calls SetLogger(nil), the call
changes the installed backend to nil. -/
theorem C12_counterexample :
    (SetLogger (some (Impl.reentrant 1 Body.ret Body.ret Body.ret
      (Body.setLevel LevelDebug Body.ret))) init)._level = LevelInfo ∧
    (Errorf "boom" [] (SetLogger (some (Impl.reentrant 1 Body.ret Body.ret Body.ret
      (Body.setLevel LevelDebug Body.ret))) init))._level = LevelDebug ∧
    LevelDebug ≠ LevelInfo ∧
    (SetLogger (some (Impl.reentrant 2 Body.ret Body.ret Body.ret
      (Body.setLoggerNil Body.ret))) init)._logger
      = some (Impl.reentrant 2 Body.ret Body.ret Body.ret (Body.setLoggerNil Body.ret)) ∧
    (Errorf "boom" [] (SetLogger (some (Impl.reentrant 2 Body.ret Body.ret Body.ret
      (Body.setLoggerNil Body.ret))) init))._logger = none := by
  decide

/-- C12 (amended): frame property on the package state.  SetLevel sets the
threshold to its argument and leaves the backend unchanged; SetLogger sets
the backend to its argument and leaves the threshold unchanged; GetLevel and
IsDebugEnabled leave the whole state unchanged; Debugf, Infof, Warnf and
Errorf leave both the threshold and the backend unchanged, for every format
and argument list, whenever the backend method they would invoke makes no
call of SetLevel or SetLogger (this includes the nil backend, the default
backend, and every backend when the call is suppressed by the threshold). -/
theorem C12_frame_of_package_state (w : World) (level : Level) (logger : Logger)
    (format : String) (args : List Value) :
    ((SetLevel level w)._level = level ∧ (SetLevel level w)._logger = w._logger) ∧
    ((SetLogger logger w)._logger = logger ∧ (SetLogger logger w)._level = w._level) ∧
    ((step w Op.GetLevel)._level = w._level ∧ (step w Op.GetLevel)._logger = w._logger) ∧
    ((step w Op.IsDebugEnabled)._level = w._level ∧
      (step w Op.IsDebugEnabled)._logger = w._logger) ∧
    ((∀ l, w._logger = some l → l.body Method.Debugf = Body.ret) →
      (Debugf format args w)._level = w._level ∧
      (Debugf format args w)._logger = w._logger) ∧
    ((∀ l, w._logger = some l → l.body Method.Infof = Body.ret) →
      (Infof format args w)._level = w._level ∧
      (Infof format args w)._logger = w._logger) ∧
    ((∀ l, w._logger = some l → l.body Method.Warnf = Body.ret) →
      (Warnf format args w)._level = w._level ∧
      (Warnf format args w)._logger = w._logger) ∧
    ((∀ l, w._logger = some l → l.body Method.Errorf = Body.ret) →
      (Errorf format args w)._level = w._level ∧
      (Errorf format args w)._logger = w._logger) ∧
    (w._logger = none ∨ w._logger = some Impl.simpleLogger →
      ∀ m : Method, (emit m format args w)._level = w._level ∧
        (emit m format args w)._logger = w._logger) ∧
    (∀ m : Method, w._level > m.severity →
      (emit m format args w)._level = w._level ∧
      (emit m format args w)._logger = w._logger) := by
  refine ⟨⟨rfl, rfl⟩, ⟨rfl, rfl⟩, ⟨rfl, rfl⟩, ⟨rfl, rfl⟩,
    emit_frame_of_ret Method.Debugf format args w,
    emit_frame_of_ret Method.Infof format args w,
    emit_frame_of_ret Method.Warnf format args w,
    emit_frame_of_ret Method.Errorf format args w, ?_, ?_⟩
  · intro h m
    apply emit_frame_of_ret
    intro l hl
    rcases h with h | h
    · rw [h] at hl
      cases hl
    · rw [h] at hl
      cases hl
      rfl
  · intro m h
    rw [emit_suppressed m format args w h]
    exact ⟨rfl, rfl⟩

/-- Witness for C12: the installed backend calls SetLevel(LevelDebug) from
its Errorf method only; Warnf, whose method body makes no setter call, is
forwarded and leaves threshold and backend unchanged. -/
theorem C12_frame_of_package_state_witness :
    (∀ l, (SetLogger (some (Impl.reentrant 1 Body.ret Body.ret Body.ret
        (Body.setLevel LevelDebug Body.ret))) init)._logger = some l →
      l.body Method.Warnf = Body.ret) ∧
    (Warnf "w" [] (SetLogger (some (Impl.reentrant 1 Body.ret Body.ret Body.ret
        (Body.setLevel LevelDebug Body.ret))) init))._level = LevelInfo ∧
    (Warnf "w" [] (SetLogger (some (Impl.reentrant 1 Body.ret Body.ret Body.ret
        (Body.setLevel LevelDebug Body.ret))) init))._logger
      = some (Impl.reentrant 1 Body.ret Body.ret Body.ret
          (Body.setLevel LevelDebug Body.ret)) ∧
    newCalls (SetLogger (some (Impl.reentrant 1 Body.ret Body.ret Body.ret
        (Body.setLevel LevelDebug Body.ret))) init)
      (Warnf "w" [] (SetLogger (some (Impl.reentrant 1 Body.ret Body.ret Body.ret
        (Body.setLevel LevelDebug Body.ret))) init))
      = [⟨Impl.reentrant 1 Body.ret Body.ret Body.ret (Body.setLevel LevelDebug Body.ret),
          Method.Warnf, "w", []⟩] :=
  ⟨by intro l hl; cases hl; rfl,
   ((C12_frame_of_package_state
      (SetLogger (some (Impl.reentrant 1 Body.ret Body.ret Body.ret
        (Body.setLevel LevelDebug Body.ret))) init) LevelDebug none "w" []).2.2.2.2.2.2.1
      (by intro l hl; cases hl; rfl)).1,
   ((C12_frame_of_package_state
      (SetLogger (some (Impl.reentrant 1 Body.ret Body.ret Body.ret
        (Body.setLevel LevelDebug Body.ret))) init) LevelDebug none "w" []).2.2.2.2.2.2.1
      (by intro l hl; cases hl; rfl)).2,
   by decide⟩

/-- C13: SetLevel stores any int8 value, and a threshold that is not one of
the four constants acts by plain integer comparison.  With a non-nil backend:
for a threshold above LevelError (9 to 127) all four emit functions return
the state unchanged; for a threshold of 0 or below all four forward to the
backend and IsDebugEnabled is true; for a threshold that is no named level
and lies strictly between two named levels, an emit function forwards exactly
when its severity is at least the next named level above the threshold (for
the threshold 3: Debugf and Infof are suppressed, Warnf and Errorf forward). -/
theorem C13_unnamed_thresholds (w : World) (l : Impl) (hl : w._logger = some l)
    (T : Level) (format : String) (args : List Value) :
    GetLevel (SetLevel T w) = T ∧
    (LevelError < T ↔ 9 ≤ T.val ∧ T.val ≤ 127) ∧
    (LevelError < T → ∀ m : Method, emit m format args (SetLevel T w) = SetLevel T w) ∧
    (T.val ≤ 0 →
      (∀ m : Method,
        newCalls (SetLevel T w) (emit m format args (SetLevel T w)) = [⟨l, m, format, args⟩]) ∧
      IsDebugEnabled (SetLevel T w) = true) ∧
    (∀ lo hi : Method, (∀ k : Method, k.severity ≠ T) →
      lo.severity < T → T < hi.severity →
      (∀ k : Method, T < k.severity → hi.severity ≤ k.severity) →
      ∀ m : Method,
        (newCalls (SetLevel T w) (emit m format args (SetLevel T w)) = [⟨l, m, format, args⟩]
          ↔ hi.severity ≤ m.severity) ∧
        (emit m format args (SetLevel T w) = SetLevel T w ↔ ¬ hi.severity ≤ m.severity)) ∧
    (T.val = 3 →
      Debugf format args (SetLevel T w) = SetLevel T w ∧
      Infof format args (SetLevel T w) = SetLevel T w ∧
      newCalls (SetLevel T w) (Warnf format args (SetLevel T w))
        = [⟨l, Method.Warnf, format, args⟩] ∧
      newCalls (SetLevel T w) (Errorf format args (SetLevel T w))
        = [⟨l, Method.Errorf, format, args⟩]) := by
  have hl2 : (SetLevel T w)._logger = some l := hl
  have hT := T.hi
  refine ⟨rfl, ?_, ?_, ?_, ?_, ?_⟩
  · show (8 : Int) < T.val ↔ _
    omega
  · intro h m
    apply emit_suppressed
    have h8 : (8 : Int) < T.val := h
    show m.severity.val < T.val
    rcases Method.severity_cases m with hm | hm | hm | hm <;> omega
  · intro h0
    refine ⟨fun m => ?_, ?_⟩
    · rw [emit_newCalls_iff m format args (SetLevel T w) l hl2]
      show T.val ≤ m.severity.val
      rcases Method.severity_cases m with hm | hm | hm | hm <;> omega
    · show decide (T.val ≤ (1 : Int)) = true
      exact decide_eq_true (by omega)
  · intro lo hi hnamed hlo hhi hleast m
    have hiff : T ≤ m.severity ↔ hi.severity ≤ m.severity := by
      constructor
      · intro hle
        apply hleast m
        have hne : m.severity.val ≠ T.val := fun h => hnamed m (Level.ext_val h)
        have hle2 : T.val ≤ m.severity.val := hle
        show T.val < m.severity.val
        omega
      · intro hle
        have h1 : T.val < hi.severity.val := hhi
        have h2 : hi.severity.val ≤ m.severity.val := hle
        show T.val ≤ m.severity.val
        omega
    constructor
    · rw [emit_newCalls_iff m format args (SetLevel T w) l hl2]
      exact hiff
    · rw [emit_unchanged_iff m format args (SetLevel T w) l hl2]
      exact hiff.not
  · intro h3
    refine ⟨?_, ?_, ?_, ?_⟩
    · exact emit_suppressed Method.Debugf format args (SetLevel T w)
        (show (1 : Int) < T.val by omega)
    · exact emit_suppressed Method.Infof format args (SetLevel T w)
        (show (2 : Int) < T.val by omega)
    · exact (emit_newCalls_iff Method.Warnf format args (SetLevel T w) l hl2).2
        (show T.val ≤ (4 : Int) by omega)
    · exact (emit_newCalls_iff Method.Errorf format args (SetLevel T w) l hl2).2
        (show T.val ≤ (8 : Int) by omega)

/-- Witness for C13 with the default backend: thresholds 9 and 127 (above
LevelError), 0 and -128 (not positive), 5 (between LevelWarn and LevelError)
and 3 (between LevelInfo and LevelWarn). -/
theorem C13_unnamed_thresholds_witness :
    init._logger = some Impl.simpleLogger ∧
    Errorf "boom" [] (SetLevel ⟨9, by decide, by decide⟩ init)
      = SetLevel ⟨9, by decide, by decide⟩ init ∧
    Errorf "boom" [] (SetLevel ⟨127, by decide, by decide⟩ init)
      = SetLevel ⟨127, by decide, by decide⟩ init ∧
    IsDebugEnabled (SetLevel ⟨0, by decide, by decide⟩ init) = true ∧
    newCalls (SetLevel ⟨-128, by decide, by decide⟩ init)
        (Debugf "d" [] (SetLevel ⟨-128, by decide, by decide⟩ init))
      = [⟨Impl.simpleLogger, Method.Debugf, "d", []⟩] ∧
    (Warnf "w" [] (SetLevel ⟨5, by decide, by decide⟩ init)
        = SetLevel ⟨5, by decide, by decide⟩ init
      ↔ ¬ Method.Errorf.severity ≤ Method.Warnf.severity) ∧
    Infof "i" [] (SetLevel ⟨3, by decide, by decide⟩ init)
      = SetLevel ⟨3, by decide, by decide⟩ init ∧
    newCalls (SetLevel ⟨3, by decide, by decide⟩ init)
        (Warnf "w" [] (SetLevel ⟨3, by decide, by decide⟩ init))
      = [⟨Impl.simpleLogger, Method.Warnf, "w", []⟩] :=
  ⟨rfl,
   (C13_unnamed_thresholds init Impl.simpleLogger rfl ⟨9, by decide, by decide⟩
      "boom" []).2.2.1 (by decide) Method.Errorf,
   (C13_unnamed_thresholds init Impl.simpleLogger rfl ⟨127, by decide, by decide⟩
      "boom" []).2.2.1 (by decide) Method.Errorf,
   ((C13_unnamed_thresholds init Impl.simpleLogger rfl ⟨0, by decide, by decide⟩
      "d" []).2.2.2.1 (by decide)).2,
   ((C13_unnamed_thresholds init Impl.simpleLogger rfl ⟨-128, by decide, by decide⟩
      "d" []).2.2.2.1 (by decide)).1 Method.Debugf,
   ((C13_unnamed_thresholds init Impl.simpleLogger rfl ⟨5, by decide, by decide⟩
      "w" []).2.2.2.2.1 Method.Warnf Method.Errorf
        (by intro k; cases k <;> decide) (by decide) (by decide)
        (by intro k; cases k <;> decide) Method.Warnf).2,
   ((C13_unnamed_thresholds init Impl.simpleLogger rfl ⟨3, by decide, by decide⟩
      "i" []).2.2.2.2.2 rfl).2.1,
   ((C13_unnamed_thresholds init Impl.simpleLogger rfl ⟨3, by decide, by decide⟩
      "w" []).2.2.2.2.2 rfl).2.2.1⟩

/-- C14: gating is monotone.  With a non-nil backend installed and any
threshold, whenever an emit function forwards to the backend, every emit
function of the same or a higher severity forwards too (Debugf implies Infof,
Infof implies Warnf, Warnf implies Errorf); and an emit function that
forwards at threshold T forwards at every threshold T2 <= T.  Forwarding
does not depend on the format or the arguments. -/
theorem C14_gating_monotone (w : World) (l : Impl) (hl : w._logger = some l)
    (format format2 : String) (args args2 : List Value) :
    (newCalls w (Debugf format args w) = [⟨l, Method.Debugf, format, args⟩] →
      newCalls w (Infof format2 args2 w) = [⟨l, Method.Infof, format2, args2⟩]) ∧
    (newCalls w (Infof format args w) = [⟨l, Method.Infof, format, args⟩] →
      newCalls w (Warnf format2 args2 w) = [⟨l, Method.Warnf, format2, args2⟩]) ∧
    (newCalls w (Warnf format args w) = [⟨l, Method.Warnf, format, args⟩] →
      newCalls w (Errorf format2 args2 w) = [⟨l, Method.Errorf, format2, args2⟩]) ∧
    (∀ m m2 : Method, m.severity ≤ m2.severity →
      newCalls w (emit m format args w) = [⟨l, m, format, args⟩] →
      newCalls w (emit m2 format2 args2 w) = [⟨l, m2, format2, args2⟩]) ∧
    (∀ (m : Method) (T T2 : Level), T2 ≤ T →
      newCalls (SetLevel T w) (emit m format args (SetLevel T w)) = [⟨l, m, format, args⟩] →
      newCalls (SetLevel T2 w) (emit m format2 args2 (SetLevel T2 w))
        = [⟨l, m, format2, args2⟩]) := by
  have up : ∀ m m2 : Method, m.severity ≤ m2.severity →
      newCalls w (emit m format args w) = [⟨l, m, format, args⟩] →
      newCalls w (emit m2 format2 args2 w) = [⟨l, m2, format2, args2⟩] := by
    intro m m2 hmm h
    have h1 : w._level.val ≤ m.severity.val := (emit_newCalls_iff m format args w l hl).1 h
    have h2 : m.severity.val ≤ m2.severity.val := hmm
    exact (emit_newCalls_iff m2 format2 args2 w l hl).2
      (show w._level.val ≤ m2.severity.val by omega)
  refine ⟨up Method.Debugf Method.Infof (by decide), up Method.Infof Method.Warnf (by decide),
    up Method.Warnf Method.Errorf (by decide), up, ?_⟩
  intro m T T2 hT h
  have hl1 : (SetLevel T w)._logger = some l := hl
  have hl2 : (SetLevel T2 w)._logger = some l := hl
  have h1 : T.val ≤ m.severity.val := (emit_newCalls_iff m format args _ l hl1).1 h
  have h2 : T2.val ≤ T.val := hT
  exact (emit_newCalls_iff m format2 args2 _ l hl2).2
    (show T2.val ≤ m.severity.val by omega)

/-- Witness for C14: a caller-supplied backend at threshold Warn; Warnf
forwards, hence Errorf forwards; and Warnf still forwards after the threshold
is lowered from Warn to Debug. -/
theorem C14_gating_monotone_witness :
    (SetLogger (some (Impl.custom 3)) (SetLevel LevelWarn init))._logger
      = some (Impl.custom 3) ∧
    newCalls (SetLogger (some (Impl.custom 3)) (SetLevel LevelWarn init))
        (Warnf "w" [] (SetLogger (some (Impl.custom 3)) (SetLevel LevelWarn init)))
      = [⟨Impl.custom 3, Method.Warnf, "w", []⟩] ∧
    newCalls (SetLogger (some (Impl.custom 3)) (SetLevel LevelWarn init))
        (Errorf "e" [Value.int 1] (SetLogger (some (Impl.custom 3)) (SetLevel LevelWarn init)))
      = [⟨Impl.custom 3, Method.Errorf, "e", [Value.int 1]⟩] ∧
    LevelDebug ≤ LevelWarn ∧
    newCalls (SetLevel LevelDebug (SetLogger (some (Impl.custom 3)) (SetLevel LevelWarn init)))
        (emit Method.Warnf "e" [Value.int 1]
          (SetLevel LevelDebug (SetLogger (some (Impl.custom 3)) (SetLevel LevelWarn init))))
      = [⟨Impl.custom 3, Method.Warnf, "e", [Value.int 1]⟩] :=
  ⟨rfl, by decide,
   (C14_gating_monotone (SetLogger (some (Impl.custom 3)) (SetLevel LevelWarn init))
      (Impl.custom 3) rfl "w" "e" [] [Value.int 1]).2.2.1 (by decide),
   by decide,
   (C14_gating_monotone (SetLogger (some (Impl.custom 3)) (SetLevel LevelWarn init))
      (Impl.custom 3) rfl "w" "e" [] [Value.int 1]).2.2.2.2 Method.Warnf LevelWarn LevelDebug
      (by decide) (by decide)⟩

/-- C15: IsDebugEnabled agrees with the gate of Debugf.  When the backend is
non-nil, IsDebugEnabled returns true exactly when a Debugf call in that state
invokes the backend's Debugf (once, with the caller's format and arguments).
IsDebugEnabled does not depend on the backend: with a nil backend Debugf
changes nothing, while IsDebugEnabled is still true at threshold LevelDebug
and false at threshold LevelInfo. -/
theorem C15_IsDebugEnabled_agrees_with_Debugf (w : World) (format : String)
    (args : List Value) :
    (∀ l : Impl, w._logger = some l →
      (IsDebugEnabled w = true ↔
        newCalls w (Debugf format args w) = [⟨l, Method.Debugf, format, args⟩])) ∧
    (w._logger = none → Debugf format args w = w ∧ newCalls w (Debugf format args w) = []) ∧
    (∀ logger : Logger, IsDebugEnabled (SetLogger logger w) = IsDebugEnabled w) ∧
    (IsDebugEnabled (SetLogger none (SetLevel LevelDebug w)) = true ∧
      Debugf format args (SetLogger none (SetLevel LevelDebug w))
        = SetLogger none (SetLevel LevelDebug w)) ∧
    (IsDebugEnabled (SetLogger none (SetLevel LevelInfo w)) = false ∧
      Debugf format args (SetLogger none (SetLevel LevelInfo w))
        = SetLogger none (SetLevel LevelInfo w)) := by
  refine ⟨?_, ?_, fun _ => rfl, ⟨?_, ?_⟩, ⟨?_, ?_⟩⟩
  · intro l hl
    have h := emit_newCalls_iff Method.Debugf format args w l hl
    rw [show emit Method.Debugf format args w = Debugf format args w from rfl] at h
    rw [h]
    simp [IsDebugEnabled, Method.severity]
  · intro hn
    have h := emit_nil Method.Debugf format args w hn
    have h2 : Debugf format args w = w := h
    exact ⟨h2, by rw [h2]; exact newCalls_self w⟩
  · simp [IsDebugEnabled, SetLogger, SetLevel, Level.le_def]
  · exact emit_nil Method.Debugf format args (SetLogger none (SetLevel LevelDebug w)) rfl
  · simp [IsDebugEnabled, SetLogger, SetLevel, Level.le_def, LevelDebug, LevelInfo]
  · exact emit_nil Method.Debugf format args (SetLogger none (SetLevel LevelInfo w)) rfl

/-- Witness for C15: in the initial state (default backend, threshold Info)
both sides are false; after SetLevel(LevelDebug) both are true. -/
theorem C15_IsDebugEnabled_agrees_with_Debugf_witness :
    init._logger = some Impl.simpleLogger ∧
    (IsDebugEnabled init = true ↔
      newCalls init (Debugf "x=%d" [Value.int 1] init)
        = [⟨Impl.simpleLogger, Method.Debugf, "x=%d", [Value.int 1]⟩]) ∧
    (IsDebugEnabled (SetLevel LevelDebug init) = true ↔
      newCalls (SetLevel LevelDebug init) (Debugf "x=%d" [Value.int 1] (SetLevel LevelDebug init))
        = [⟨Impl.simpleLogger, Method.Debugf, "x=%d", [Value.int 1]⟩]) ∧
    (SetLogger none init)._logger = none ∧
    Debugf "x=%d" [Value.int 1] (SetLogger none init) = SetLogger none init :=
  ⟨rfl,
   (C15_IsDebugEnabled_agrees_with_Debugf init "x=%d" [Value.int 1]).1 Impl.simpleLogger rfl,
   (C15_IsDebugEnabled_agrees_with_Debugf (SetLevel LevelDebug init) "x=%d" [Value.int 1]).1
      Impl.simpleLogger rfl,
   rfl,
   ((C15_IsDebugEnabled_agrees_with_Debugf (SetLogger none init) "x=%d" [Value.int 1]).2.1
      rfl).1⟩

end logger
